import Mathlib

/-!
Shallow embedding of the local execution backend
(`src/ts/nni_manager/training_service/reusable/environments/localEnvironmentService.ts`),
a local process supervisor driven by polling.  Pure code is translated to
Lean functions; the filesystem and the process-liveness primitive enter as
explicit observation values, and filesystem effects are recorded as an
explicit action trace.
-/

/-- The status values of an environment used by this backend
(`WAITING, RUNNING, SUCCEEDED, FAILED`; terminal: the last two). -/
inductive EnvironmentStatus where
  | WAITING
  | RUNNING
  | SUCCEEDED
  | FAILED
deriving DecidableEq, Repr

/-- The caller-owned environment record mutated by the service
(`EnvironmentInformation`): only the fields this backend touches. -/
structure EnvironmentInformation where
  id : String
  status : EnvironmentStatus
  command : String
  runnerWorkingFolder : String
  trackingUrl : String
  isAlive : Bool
deriving DecidableEq, Repr

/-- Modelled from the spec: `EnvironmentInformation.setStatus`, the
status-setting capability of the mutable environment record ("a mutable
environment record with status-setting capability"), whose code lives
outside src/.  It assigns the status field (its logging is omitted). -/
def setStatus (environment : EnvironmentInformation) (s : EnvironmentStatus) :
    EnvironmentInformation :=
  { environment with status := s }

/-- The character class of the JavaScript `\s` regex escape and of
`String.prototype.trim`: ASCII whitespace, NBSP, the Unicode space
separators, the line separators and the BOM. -/
def jsIsSpace (c : Char) : Bool :=
  c.toNat == 9 || c.toNat == 10 || c.toNat == 11 || c.toNat == 12 ||
  c.toNat == 13 || c.toNat == 32 || c.toNat == 160 || c.toNat == 5760 ||
  (8192 ≤ c.toNat && c.toNat ≤ 8202) || c.toNat == 8232 ||
  c.toNat == 8233 || c.toNat == 8239 || c.toNat == 8287 ||
  c.toNat == 12288 || c.toNat == 65279

/-- JavaScript `String.prototype.trim`: drop `jsIsSpace` characters from
both ends. -/
def jsTrim (s : String) : String :=
  String.mk (((s.data.dropWhile jsIsSpace).reverse.dropWhile jsIsSpace).reverse)

/-- Numeric value of a digit string, as computed by `parseInt(ds, 10)` on a
string of decimal digits. -/
def digitsVal (ds : List Char) : Nat :=
  ds.foldl (fun n c => 10 * n + (c.toNat - 48)) 0

/-- Matcher for the exit-marker regex of the poller,
`/^-?(\d+)\s+(\d+)$/`, on a character list: an optional minus sign, a first
digit group (the capture excludes the sign), one or more whitespace
characters, a second digit group, end of input.  Greedy matching is
unambiguous here because no character is both a digit and whitespace. -/
def exitCodeMatch (cs : List Char) : Option (List Char × List Char) :=
  let cs1 := match cs with
    | '-' :: rest => rest
    | _ => cs
  let d1 := cs1.takeWhile Char.isDigit
  let r1 := cs1.dropWhile Char.isDigit
  if d1.isEmpty then none
  else
    let sp := r1.takeWhile jsIsSpace
    let r2 := r1.dropWhile jsIsSpace
    if sp.isEmpty then none
    else
      let d2 := r2.takeWhile Char.isDigit
      let r3 := r2.dropWhile Char.isDigit
      if d2.isEmpty then none
      else if r3.isEmpty then some (d1, d2) else none

/-- `runnerReturnCode.trim().match(/^-?(\d+)\s+(\d+)$/)` from the poller:
trim, then run the exit-marker matcher; `some (code, timestamp)` holds the
two capture groups. -/
def jsExitMatch (s : String) : Option (List Char × List Char) :=
  exitCodeMatch (jsTrim s).data

deriving instance DecidableEq for Except

/-- What one poll observes about one environment through the external
primitives: whether `existsSync` reports the pid marker, the outcome of
`fs.promises.readFile` on it, the `isAlive` liveness primitive, whether
`existsSync` reports the exit-code marker, and the outcome of reading it.
`Except.error` models a rejected read (the file disappeared, permissions,
and so on). -/
structure EnvCheckObservation where
  pidExists : Bool
  pidRead : Except String String
  alive : Bool
  codeExists : Bool
  codeRead : Except String String
deriving DecidableEq, Repr

/-- The per-environment body of `refreshEnvironmentsStatus` (the callback
of `environments.forEach`): return unchanged when no pid marker exists;
otherwise read the pid, mark the environment `RUNNING`, and when the
process is not alive and the exit-code marker is present, parse it and set
the terminal status (`0` to `SUCCEEDED`, any other integer to `FAILED`).
A rejected read is caught (only logged): where the catch fires, the
environment keeps the value it had at that point. -/
def checkEnvironmentStatus (obs : EnvCheckObservation)
    (environment : EnvironmentInformation) : EnvironmentInformation :=
  if obs.pidExists = false then environment
  else
    match obs.pidRead with
    | Except.error _ => environment
    | Except.ok _ =>
      let environment := { environment with status := EnvironmentStatus.RUNNING }
      if obs.alive then environment
      else if obs.codeExists = false then environment
      else
        match obs.codeRead with
        | Except.error _ => environment
        | Except.ok runnerReturnCode =>
          match jsExitMatch runnerReturnCode with
          | none => environment
          | some g =>
            if digitsVal g.1 = 0 then setStatus environment EnvironmentStatus.SUCCEEDED
            else setStatus environment EnvironmentStatus.FAILED

/-- `refreshEnvironmentsStatus`: each environment of the batch is checked
independently against its own observation; no exception escapes any item
(each body is total), so the batch call always yields a result for every
environment. -/
def refreshEnvironmentsStatus
    (batch : List (EnvironmentInformation × EnvCheckObservation)) :
    List EnvironmentInformation :=
  batch.map (fun p => checkEnvironmentStatus p.2 p.1)

/-- The executing platform (`process.platform`): the command-shell variant,
the macOS shell variant, and the remaining POSIX shells (the else-branch of
the generator). -/
inductive Platform where
  | win32
  | darwin
  | linux
deriving DecidableEq, Repr

/-- Node `path.join` for the plain relative components this service joins
(a uniform separator is used; the claims do not depend on the separator
character). -/
def pathJoin (a b : String) : String :=
  a ++ "/" ++ b

/-- Modelled from the spec: `getNewLine` from common/utils (outside src/),
"joins the resulting statements with the platform line terminator". -/
def getNewLine (platform : Platform) : String :=
  match platform with
  | Platform.win32 => "\r\n"
  | _ => "\n"

/-- Modelled from the spec: `getScriptName` from training_service/common
(outside src/), "writes the generated script to an executable file
(platform-appropriate extension)": a PowerShell extension on the
command-shell platform, a shell extension otherwise. -/
def getScriptName (platform : Platform) (fileNamePrefix : String) : String :=
  match platform with
  | Platform.win32 => fileNamePrefix ++ ".ps1"
  | _ => fileNamePrefix ++ ".sh"

/-- `getScript`: the script generator.  It returns the ordered statement
list and the environment record as left by the generator: on `win32` the
source assigns `environment.command` before pushing the runner statement;
on the POSIX branches the record is read but not written.  The statement
strings are rendered exactly as the template literals of the source. -/
def getScript (platform : Platform) (experimentRootDir : String)
    (environment : EnvironmentInformation) :
    List String × EnvironmentInformation :=
  match platform with
  | Platform.win32 =>
    let environment := { environment with
      command := "cd envs\\" ++ environment.id ++ " && python -m nni.tools.trial_tool.trial_runner" }
    ([ "cd $env:" ++ experimentRootDir,
       "New-Item -ItemType \"directory\" -Path "
         ++ pathJoin (pathJoin experimentRootDir "envs") environment.id ++ " -Force",
       "cmd.exe /c " ++ environment.command ++ " --job_pid_file "
         ++ pathJoin environment.runnerWorkingFolder "pid"
         ++ " 2>&1 | Out-File \"" ++ pathJoin environment.runnerWorkingFolder "trial_runner.log"
         ++ "\" -encoding utf8",
       "$NOW_DATE = [int64](([datetime]::UtcNow)-(get-date \"1/1/1970\")).TotalSeconds",
       "$NOW_DATE = \"$NOW_DATE\" + (Get-Date -Format fff).ToString()",
       "Write $LASTEXITCODE \" \" $NOW_DATE  | Out-File \""
         ++ pathJoin environment.runnerWorkingFolder "code" ++ "\" -NoNewline -encoding utf8" ],
     environment)
  | Platform.darwin =>
    ([ "cd " ++ experimentRootDir,
       "eval " ++ environment.command ++ " --job_pid_file "
         ++ environment.runnerWorkingFolder ++ "/pid 1>"
         ++ environment.runnerWorkingFolder ++ "/trialrunner_stdout 2>"
         ++ environment.runnerWorkingFolder ++ "/trialrunner_stderr\"",
       "echo $? `date +%s999` >\x27" ++ environment.runnerWorkingFolder ++ "/code\x27" ],
     environment)
  | Platform.linux =>
    ([ "cd " ++ experimentRootDir,
       "eval " ++ environment.command ++ " --job_pid_file "
         ++ environment.runnerWorkingFolder ++ "/pid 1>"
         ++ environment.runnerWorkingFolder ++ "/trialrunner_stdout 2>"
         ++ environment.runnerWorkingFolder ++ "/trialrunner_stderr\"",
       "echo $? `date +%s%3N` >\x27" ++ environment.runnerWorkingFolder ++ "/code\x27" ],
     environment)

/-- A JavaScript runtime value as far as this service can observe one:
the stored trial configuration has static type `TrialConfig | undefined`
but `JSON.parse` can put any JSON value (including `null`) behind the
cast. -/
inductive JsValue where
  | undefined
  | null
  | bool (b : Bool)
  | num (n : Int)
  | str (s : String)
  | arr (items : List JsValue)
  | obj (fields : List (String × JsValue))

/-- The JavaScript strict comparison `=== undefined` on a runtime value:
a tag test. -/
def JsValue.isUndefined : JsValue → Bool
  | JsValue.undefined => true
  | _ => false

/-- JSON whitespace characters accepted between tokens by `JSON.parse`. -/
def jsonIsWs (c : Char) : Bool :=
  c == ' ' || c == '\t' || c == '\n' || c == '\r'

/-- Skip JSON whitespace. -/
def jsonSkipWs (cs : List Char) : List Char :=
  cs.dropWhile jsonIsWs

/-- Read the characters of a JSON string up to the closing quote (the
escape-free fragment; an escape or a missing quote fails). -/
def jsonStringChars (fuel : Nat) (cs : List Char) : Option (List Char × List Char) :=
  match fuel, cs with
  | 0, _ => none
  | _, [] => none
  | fuel + 1, c :: rest =>
    if c == '"' then some ([], rest)
    else if c == '\\' then none
    else
      match jsonStringChars fuel rest with
      | none => none
      | some (s, r) => some (c :: s, r)

mutual

/-- Modelled JSON value grammar of the `JSON.parse` builtin (integer
numbers and escape-free strings; enough for the configuration payloads this
service receives).  Fuel bounds the recursion by the input length. -/
def jsonValueP (fuel : Nat) (cs : List Char) : Option (JsValue × List Char) :=
  match fuel with
  | 0 => none
  | fuel + 1 =>
    match jsonSkipWs cs with
    | 'n' :: 'u' :: 'l' :: 'l' :: rest => some (JsValue.null, rest)
    | 't' :: 'r' :: 'u' :: 'e' :: rest => some (JsValue.bool true, rest)
    | 'f' :: 'a' :: 'l' :: 's' :: 'e' :: rest => some (JsValue.bool false, rest)
    | '"' :: rest =>
      match jsonStringChars fuel rest with
      | none => none
      | some (s, r) => some (JsValue.str (String.mk s), r)
    | '\x7b' :: rest =>
      match jsonSkipWs rest with
      | '\x7d' :: r => some (JsValue.obj [], r)
      | other => match jsonMembersP fuel other with
        | none => none
        | some (fields, r) => some (JsValue.obj fields, r)
    | '[' :: rest =>
      match jsonSkipWs rest with
      | ']' :: r => some (JsValue.arr [], r)
      | other => match jsonItemsP fuel other with
        | none => none
        | some (items, r) => some (JsValue.arr items, r)
    | '-' :: rest =>
      let ds := rest.takeWhile Char.isDigit
      let r := rest.dropWhile Char.isDigit
      if ds.isEmpty then none else some (JsValue.num (-(digitsVal ds : Int)), r)
    | c :: rest =>
      if c.isDigit then
        let ds := (c :: rest).takeWhile Char.isDigit
        let r := (c :: rest).dropWhile Char.isDigit
        some (JsValue.num (digitsVal ds), r)
      else none
    | [] => none

/-- Members of a JSON object: string key, colon, value, then a comma and
more members or the closing brace. -/
def jsonMembersP (fuel : Nat) (cs : List Char) :
    Option (List (String × JsValue) × List Char) :=
  match fuel with
  | 0 => none
  | fuel + 1 =>
    match jsonSkipWs cs with
    | '"' :: rest =>
      match jsonStringChars fuel rest with
      | none => none
      | some (k, r1) =>
        match jsonSkipWs r1 with
        | ':' :: r2 =>
          match jsonValueP fuel r2 with
          | none => none
          | some (v, r3) =>
            match jsonSkipWs r3 with
            | ',' :: r4 =>
              match jsonMembersP fuel r4 with
              | none => none
              | some (fields, r5) => some ((String.mk k, v) :: fields, r5)
            | '\x7d' :: r4 => some ([(String.mk k, v)], r4)
            | _ => none
        | _ => none
    | _ => none

/-- Items of a JSON array: value, then a comma and more items or the
closing bracket. -/
def jsonItemsP (fuel : Nat) (cs : List Char) :
    Option (List JsValue × List Char) :=
  match fuel with
  | 0 => none
  | fuel + 1 =>
    match jsonValueP fuel cs with
    | none => none
    | some (v, r1) =>
      match jsonSkipWs r1 with
      | ',' :: r2 =>
        match jsonItemsP fuel r2 with
        | none => none
        | some (items, r3) => some (v :: items, r3)
      | ']' :: r2 => some ([v], r2)
      | _ => none

end

/-- The `JSON.parse` builtin on the modelled fragment: parse one value and
require only whitespace to remain; anything else rejects (the thrown
`SyntaxError` becomes `Except.error`). -/
def jsonParse (s : String) : Except String JsValue :=
  match jsonValueP (s.length + 1) s.data with
  | some (v, rest) =>
    if jsonSkipWs rest = [] then Except.ok v
    else Except.error "Unexpected token in JSON"
  | none => Except.error "Unexpected token in JSON"

/-- Modelled from the spec: `TrialConfigMetadataKey.TRIAL_CONFIG` (outside
src/), the single key the configuration intake recognizes ("trial
config"). -/
def TrialConfigMetadataKey_TRIAL_CONFIG : String :=
  "trial_config"

/-- The service-wide state of `LocalEnvironmentService`: the stored trial
configuration (initially `undefined`), the experiment root directory and
the experiment id fixed at construction. -/
structure LocalEnvironmentService where
  localTrialConfig : JsValue
  experimentRootDir : String
  experimentId : String

/-- `config`: on the trial-config key, store the `JSON.parse` of the value
(no shape validation; a parse rejection propagates); any other key only
logs at debug level and changes nothing. -/
def config (service : LocalEnvironmentService) (key value : String) :
    Except String LocalEnvironmentService :=
  if key = TrialConfigMetadataKey_TRIAL_CONFIG then
    (jsonParse value).map (fun v => { service with localTrialConfig := v })
  else Except.ok service

/-- One recorded filesystem or process effect of the lifecycle controller:
directory creation, recursive copy, script write (with its mode), script
launch, a marker-file read, and the tree-kill signal. -/
inductive FsAction where
  | execMkdir (path : String)
  | execCopydir (source target : String)
  | writeFile (path : String) (content : String) (mode : Nat)
  | runScript (path : String)
  | readFile (path : String)
  | treeKill (pid : Option Int) (signal : String)
deriving DecidableEq, Repr

/-- `startEnvironment`: fail with the configuration-missing error when the
trial config is strictly `undefined` (and perform no action); otherwise set
the working folder, create it, copy the staged code, generate and join the
script, store it as the command, write it mode `0o777` to the shared envs
folder, launch it fire-and-forget, and set the tracking url.  The result
pairs the updated record with the ordered action trace. -/
def startEnvironment (platform : Platform)
    (service : LocalEnvironmentService)
    (environment : EnvironmentInformation) :
    Except String EnvironmentInformation × List FsAction :=
  if service.localTrialConfig.isUndefined then
    (Except.error "Local trial config is not initialized", [])
  else
    let localTempFolder :=
      pathJoin (pathJoin (pathJoin service.experimentRootDir service.experimentId)
        "environment-temp") "envs"
    let localEnvCodeFolder := pathJoin service.experimentRootDir "envs"
    let environment := { environment with
      runnerWorkingFolder := pathJoin localEnvCodeFolder environment.id }
    let scripted := getScript platform service.experimentRootDir environment
    let environment := { scripted.2 with
      command := String.intercalate (getNewLine platform) scripted.1 }
    let scriptName := getScriptName platform "run"
    let environment := { environment with
      trackingUrl := environment.runnerWorkingFolder }
    (Except.ok environment,
     [ FsAction.execMkdir environment.runnerWorkingFolder,
       FsAction.execCopydir localTempFolder localEnvCodeFolder,
       FsAction.writeFile (pathJoin localEnvCodeFolder scriptName) environment.command 511,
       FsAction.runScript (pathJoin localEnvCodeFolder scriptName) ])

/-- The integer fragment of the JavaScript `Number` conversion applied to
the pid marker content: trim, an empty string is `0`, an optionally signed
digit string is its value, anything else is `NaN` (`none`). -/
def jsNumber (s : String) : Option Int :=
  match (jsTrim s).data with
  | [] => some 0
  | '-' :: ds =>
    if ds.isEmpty = false && ds.all Char.isDigit then some (-(digitsVal ds : Int))
    else none
  | '+' :: ds =>
    if ds.isEmpty = false && ds.all Char.isDigit then some (digitsVal ds)
    else none
  | ds =>
    if ds.all Char.isDigit then some (digitsVal ds) else none

/-- `stopEnvironment`: return at once when `isAlive` is false; otherwise
read the pid marker — a missing marker rejects the read, and that rejection
propagates out of the call — and send the tree-kill `SIGKILL` to the pid
(fire-and-forget: the third-party tree-kill primitive reports nothing back
to this call).  The filesystem is the map from paths to contents; the
second component is the action trace. -/
def stopEnvironment (fsState : String → Option String)
    (environment : EnvironmentInformation) :
    Except String Unit × List FsAction :=
  if environment.isAlive = false then (Except.ok (), [])
  else
    let jobpidPath := pathJoin environment.runnerWorkingFolder "pid"
    match fsState jobpidPath with
    | none => (Except.error "ENOENT", [FsAction.readFile jobpidPath])
    | some pid =>
      (Except.ok (),
       [FsAction.readFile jobpidPath, FsAction.treeKill (jsNumber pid) "SIGKILL"])

/-- The terminal status, if any, that a single observation forces on every
environment polled under it: pid marker present and readable, process not
alive, exit-code marker present, readable and matching the exit-marker
pattern. -/
def obsTerminalStatus (obs : EnvCheckObservation) : Option EnvironmentStatus :=
  if obs.pidExists = false then none
  else
    match obs.pidRead with
    | Except.error _ => none
    | Except.ok _ =>
      if obs.alive then none
      else if obs.codeExists = false then none
      else
        match obs.codeRead with
        | Except.error _ => none
        | Except.ok runnerReturnCode =>
          match jsExitMatch runnerReturnCode with
          | none => none
          | some g =>
            if digitsVal g.1 = 0 then some EnvironmentStatus.SUCCEEDED
            else some EnvironmentStatus.FAILED

/-- The environment returned by a successful `startEnvironment`; on the
error branch the input record is returned unchanged (the source mutates
nothing before the configuration check). -/
def startedEnv (platform : Platform) (service : LocalEnvironmentService)
    (environment : EnvironmentInformation) : EnvironmentInformation :=
  match (startEnvironment platform service environment).1 with
  | Except.ok e => e
  | Except.error _ => environment

/-- The paths of the file writes in an action trace. -/
def writeFilePaths (actions : List FsAction) : List String :=
  actions.filterMap (fun a =>
    match a with
    | FsAction.writeFile p _ _ => some p
    | _ => none)

/-- A concrete waiting environment used by witnesses. -/
def envWaiting : EnvironmentInformation :=
  { id := "e1", status := EnvironmentStatus.WAITING,
    command := "python train.py", runnerWorkingFolder := "root/envs/e1",
    trackingUrl := "", isAlive := true }

/-- A second concrete environment with a distinct id. -/
def envSecond : EnvironmentInformation :=
  { id := "e2", status := EnvironmentStatus.WAITING,
    command := "python train.py", runnerWorkingFolder := "root/envs/e2",
    trackingUrl := "", isAlive := true }

/-- A concrete observation: pid marker readable, process dead, exit-code
marker reads a zero exit line. -/
def obsSucceeded : EnvCheckObservation :=
  { pidExists := true, pidRead := Except.ok "123", alive := false,
    codeExists := true, codeRead := Except.ok "0 1700000000123" }

/-- A concrete observation: pid marker readable, process dead, exit-code
marker reads a nonzero exit line. -/
def obsFailed : EnvCheckObservation :=
  { pidExists := true, pidRead := Except.ok "123", alive := false,
    codeExists := true, codeRead := Except.ok "2 1700000000123" }

/-- A concrete observation in which the pid is observed alive again (for
instance after pid reuse), with the exit-code marker unchanged. -/
def obsAliveAgain : EnvCheckObservation :=
  { pidExists := true, pidRead := Except.ok "123", alive := true,
    codeExists := true, codeRead := Except.ok "0 1700000000123" }

/-- A concrete observation with no pid marker. -/
def obsNoPid : EnvCheckObservation :=
  { pidExists := false, pidRead := Except.error "ENOENT", alive := false,
    codeExists := false, codeRead := Except.error "ENOENT" }

/-- A concrete observation in which reading the exit-code marker is
rejected after the pid was seen and the process found dead. -/
def obsCodeReadError : EnvCheckObservation :=
  { pidExists := true, pidRead := Except.ok "123", alive := false,
    codeExists := true, codeRead := Except.error "EACCES" }

/-- A concrete observation in which reading the pid marker itself is
rejected. -/
def obsPidReadError : EnvCheckObservation :=
  { pidExists := true, pidRead := Except.error "EACCES", alive := false,
    codeExists := false, codeRead := Except.error "ENOENT" }

/-- A concrete service before any configuration call. -/
def serviceUndef : LocalEnvironmentService :=
  { localTrialConfig := JsValue.undefined,
    experimentRootDir := "root", experimentId := "exp" }

/-- The concrete service after `config` with the value `"null"`. -/
def serviceNull : LocalEnvironmentService :=
  { localTrialConfig := JsValue.null,
    experimentRootDir := "root", experimentId := "exp" }

/-- An empty filesystem: every read is rejected. -/
def fsEmpty : String → Option String :=
  fun _ => none

/-- A filesystem holding one pid marker for `envWaiting`. -/
def fsWithPid : String → Option String :=
  fun p => if p = "root/envs/e1/pid" then some "42" else none

/-- A concrete environment whose `isAlive` flag is already false. -/
def envStopped : EnvironmentInformation :=
  { envWaiting with isAlive := false }

/-- A concrete two-environment batch: the first check hits a read error on
the exit-code marker, the second completes normally. -/
def batchTwo : List (EnvironmentInformation × EnvCheckObservation) :=
  [(envWaiting, obsCodeReadError), (envSecond, obsSucceeded)]

/-- A concrete one-environment batch with no pid marker. -/
def batchNoPid : List (EnvironmentInformation × EnvCheckObservation) :=
  [(envWaiting, obsNoPid)]

/-! Helper lemmas. -/

/-- The script generator never touches the working-folder field. -/
theorem getScript_keeps_runnerWorkingFolder (platform : Platform)
    (experimentRootDir : String) (environment : EnvironmentInformation) :
    ((getScript platform experimentRootDir environment).2).runnerWorkingFolder =
      environment.runnerWorkingFolder := by
  cases platform <;> rfl

/-- An observation that forces a terminal status forces it on every
environment polled under it. -/
theorem obsTerminal_check (obs : EnvCheckObservation) (s : EnvironmentStatus)
    (env : EnvironmentInformation) (h : obsTerminalStatus obs = some s) :
    (checkEnvironmentStatus obs env).status = s := by
  obtain ⟨pe, pr, al, ce, cr⟩ := obs
  cases pe <;> cases al <;> cases ce <;> cases pr <;> cases cr <;>
    simp_all [obsTerminalStatus, checkEnvironmentStatus, setStatus]
  rcases hm : jsExitMatch _ with _ | g
  · simp_all
  · simp_all
    split <;> simp_all

/-- Appending distinct suffixes that end in distinct characters yields
distinct strings. -/
theorem appendPid_ne_appendCode (x y : String) : x ++ "pid" ≠ y ++ "code" := by
  intro h
  have hd := congrArg (fun s => List.getLast? (String.data s)) h
  simp only [String.data_append] at hd
  rw [List.getLast?_append_of_ne_nil _ (by decide),
    List.getLast?_append_of_ne_nil _ (by decide)] at hd
  exact absurd hd (by decide)

/-- A successful start sets the working folder of the environment to the
per-id folder under the shared envs root. -/
theorem startedEnv_runnerWorkingFolder (platform : Platform)
    (service : LocalEnvironmentService) (environment : EnvironmentInformation)
    (h0 : service.localTrialConfig.isUndefined = false) :
    (startedEnv platform service environment).runnerWorkingFolder =
      pathJoin (pathJoin service.experimentRootDir "envs") environment.id := by
  unfold startedEnv startEnvironment
  simp [h0, getScript_keeps_runnerWorkingFolder]

/-- The per-environment marker paths are injective in the id. -/
theorem markerPath_inj (root suffix id1 id2 : String)
    (h : pathJoin (pathJoin (pathJoin root "envs") id1) suffix =
      pathJoin (pathJoin (pathJoin root "envs") id2) suffix) :
    id1 = id2 := by
  have hd := congrArg String.data h
  simp only [pathJoin, String.data_append, List.append_assoc] at hd
  have h1 := List.append_cancel_left hd
  have h2 := List.append_cancel_left h1
  have h3 := List.append_cancel_left h2
  have h4 := List.append_cancel_left h3
  exact String.ext (List.append_cancel_right h4)

/-! Claim theorems. -/

/-- C1 counterexample: a first poll sets the environment to `SUCCEEDED`
(pid marker present, process dead, zero exit line), and a later poll whose
observation reports the pid alive again assigns the earlier state
`RUNNING`, demoting the environment from its terminal state. -/
theorem c1_counterexample :
    (checkEnvironmentStatus obsSucceeded envWaiting).status =
      EnvironmentStatus.SUCCEEDED ∧
    (checkEnvironmentStatus obsAliveAgain
      (checkEnvironmentStatus obsSucceeded envWaiting)).status =
      EnvironmentStatus.RUNNING :=
  ⟨rfl, rfl⟩

/-- C1 amended: once a poll observes the dead process together with a
matching exit-code marker and so computes a terminal status, every later
poll whose observation still shows the pid marker, the dead process and an
exit-code marker forcing the same terminal status keeps the environment at
that status, over any such sequence of polls. -/
theorem c1_terminal_persistence (env : EnvironmentInformation)
    (obs : EnvCheckObservation) (s : EnvironmentStatus)
    (obss : List EnvCheckObservation)
    (h : obsTerminalStatus obs = some s)
    (hs : ∀ o ∈ obss, obsTerminalStatus o = some s) :
    (obss.foldl (fun e o => checkEnvironmentStatus o e)
      (checkEnvironmentStatus obs env)).status = s := by
  induction obss generalizing env obs with
  | nil => exact obsTerminal_check obs s env h
  | cons o rest ih =>
    simp only [List.foldl_cons]
    exact ih (checkEnvironmentStatus obs env) o (hs o (by simp))
      (fun o' ho' => hs o' (by simp [ho']))

/-- C1 witness: the persistence theorem applied to a concrete waiting
environment, the succeeding observation and one repeated poll. -/
theorem c1_terminal_persistence_witness :
    (List.foldl (fun e o => checkEnvironmentStatus o e)
      (checkEnvironmentStatus obsSucceeded envWaiting) [obsSucceeded]).status =
      EnvironmentStatus.SUCCEEDED :=
  c1_terminal_persistence envWaiting obsSucceeded EnvironmentStatus.SUCCEEDED
    [obsSucceeded] rfl
    (fun o ho => by rw [List.mem_singleton] at ho; rw [ho]; rfl)

/-- C2: when a poll finds the pid marker readable, the process dead and
the exit-code marker readable, the trimmed marker content is matched
against the optional-sign digits whitespace digits pattern; on a match a
zero exit code yields `SUCCEEDED` and any other integer yields `FAILED`;
on a mismatch the marker processing leaves the status exactly as when no
marker is present (the `RUNNING` established by the pid observation). -/
theorem c2_exit_marker_parsing (env : EnvironmentInformation)
    (obs : EnvCheckObservation) (p content : String)
    (h1 : obs.pidExists = true) (h2 : obs.pidRead = Except.ok p)
    (h3 : obs.alive = false) (h4 : obs.codeExists = true)
    (h5 : obs.codeRead = Except.ok content) :
    (checkEnvironmentStatus obs env).status =
      (match jsExitMatch content with
       | some g =>
         if digitsVal g.1 = 0 then EnvironmentStatus.SUCCEEDED
         else EnvironmentStatus.FAILED
       | none => EnvironmentStatus.RUNNING) ∧
    (jsExitMatch content = none →
      checkEnvironmentStatus obs env =
        checkEnvironmentStatus { obs with codeExists := false } env) := by
  obtain ⟨pe, pr, al, ce, cr⟩ := obs
  simp only at h1 h2 h3 h4 h5
  subst h1 h2 h3 h4 h5
  constructor
  · rcases hm : jsExitMatch content with _ | g <;>
      simp [checkEnvironmentStatus, setStatus, hm]
    split <;> rfl
  · intro hm
    simp [checkEnvironmentStatus, hm]

/-- C2 witness: at the concrete zero exit line of the spec the poll yields
`SUCCEEDED`. -/
theorem c2_exit_marker_parsing_witness :
    (checkEnvironmentStatus obsSucceeded envWaiting).status =
      (match jsExitMatch "0 1700000000123" with
       | some g =>
         if digitsVal g.1 = 0 then EnvironmentStatus.SUCCEEDED
         else EnvironmentStatus.FAILED
       | none => EnvironmentStatus.RUNNING) ∧
    (jsExitMatch "0 1700000000123" = none →
      checkEnvironmentStatus obsSucceeded envWaiting =
        checkEnvironmentStatus { obsSucceeded with codeExists := false }
          envWaiting) :=
  c2_exit_marker_parsing envWaiting obsSucceeded "123" "0 1700000000123"
    rfl rfl rfl rfl rfl

/-- C3: `startEnvironment` without a stored trial configuration fails with
the configuration-missing error and records no filesystem action at
all. -/
theorem c3_start_requires_config (platform : Platform)
    (service : LocalEnvironmentService) (environment : EnvironmentInformation)
    (h : service.localTrialConfig = JsValue.undefined) :
    startEnvironment platform service environment =
      (Except.error "Local trial config is not initialized", []) := by
  simp [startEnvironment, h, JsValue.isUndefined]

/-- C3 witness: the unconfigured concrete service. -/
theorem c3_start_requires_config_witness :
    startEnvironment Platform.linux serviceUndef envWaiting =
      (Except.error "Local trial config is not initialized", []) :=
  c3_start_requires_config Platform.linux serviceUndef envWaiting rfl

/-- C4 counterexample: on the command-shell platform the script generator
mutates the environment record, overwriting its command field. -/
theorem c4_counterexample :
    (getScript Platform.win32 "root" envWaiting).2 ≠ envWaiting := by
  decide

/-- C4 amended: the script generator is a pure mapping and on the POSIX
platforms it leaves the environment record untouched, but on the
command-shell platform it overwrites the command field with the runner
invocation; it performs no file write and no process execution on any
platform (its result carries no action). -/
theorem c4_getScript_mutation (experimentRootDir : String)
    (environment : EnvironmentInformation) :
    (getScript Platform.linux experimentRootDir environment).2 = environment ∧
    (getScript Platform.darwin experimentRootDir environment).2 = environment ∧
    (getScript Platform.win32 experimentRootDir environment).2 =
      { environment with
        command := "cd envs\\" ++ environment.id ++
          " && python -m nni.tools.trial_tool.trial_runner" } :=
  ⟨rfl, rfl, rfl⟩

/-- C5 counterexample: on an environment with `isAlive` true and no pid
marker on disk, the stop call surfaces the rejected read to the caller. -/
theorem c5_counterexample :
    envWaiting.isAlive = true ∧
    (stopEnvironment fsEmpty envWaiting).1 = Except.error "ENOENT" :=
  ⟨rfl, rfl⟩

/-- C5 amended: when stop is called on an environment with `isAlive` true
and the pid marker is present, it reads the marker and sends the forceful
tree-kill signal for that pid, and the call itself reports success (a
failure of the signal is never reported back); a missing pid marker,
however, makes the call fail with the read error. -/
theorem c5_stop_alive (fsState : String → Option String)
    (environment : EnvironmentInformation) (p : String)
    (h1 : environment.isAlive = true)
    (h2 : fsState (pathJoin environment.runnerWorkingFolder "pid") = some p) :
    stopEnvironment fsState environment =
      (Except.ok (),
       [FsAction.readFile (pathJoin environment.runnerWorkingFolder "pid"),
        FsAction.treeKill (jsNumber p) "SIGKILL"]) := by
  simp [stopEnvironment, h1, h2]

/-- C5 witness: the concrete filesystem holding the pid marker `42`. -/
theorem c5_stop_alive_witness :
    stopEnvironment fsWithPid envWaiting =
      (Except.ok (),
       [FsAction.readFile (pathJoin envWaiting.runnerWorkingFolder "pid"),
        FsAction.treeKill (jsNumber "42") "SIGKILL"]) :=
  c5_stop_alive fsWithPid envWaiting "42" rfl rfl

/-- C6 counterexample: two environments with distinct ids both have their
generated launch script written by `startEnvironment` to the same shared
path under the envs root. -/
theorem c6_counterexample :
    envWaiting.id ≠ envSecond.id ∧
    writeFilePaths (startEnvironment Platform.linux serviceNull envWaiting).2 =
      ["root/envs/run.sh"] ∧
    writeFilePaths (startEnvironment Platform.linux serviceNull envSecond).2 =
      ["root/envs/run.sh"] :=
  ⟨by decide, rfl, rfl⟩

/-- C6 amended: for two environments with distinct ids, the pid marker and
exit-code marker paths under the working folders assigned by
`startEnvironment` are pairwise distinct across the environments; the
generated launch script, however, is written to a single path shared by
all environments. -/
theorem c6_marker_paths_exclusive (platform : Platform)
    (service : LocalEnvironmentService) (env1 env2 : EnvironmentInformation)
    (h0 : service.localTrialConfig.isUndefined = false)
    (h : env1.id ≠ env2.id) :
    pathJoin (startedEnv platform service env1).runnerWorkingFolder "pid" ≠
      pathJoin (startedEnv platform service env2).runnerWorkingFolder "pid" ∧
    pathJoin (startedEnv platform service env1).runnerWorkingFolder "code" ≠
      pathJoin (startedEnv platform service env2).runnerWorkingFolder "code" ∧
    pathJoin (startedEnv platform service env1).runnerWorkingFolder "pid" ≠
      pathJoin (startedEnv platform service env2).runnerWorkingFolder "code" ∧
    pathJoin (startedEnv platform service env1).runnerWorkingFolder "code" ≠
      pathJoin (startedEnv platform service env2).runnerWorkingFolder "pid" := by
  rw [startedEnv_runnerWorkingFolder platform service env1 h0,
    startedEnv_runnerWorkingFolder platform service env2 h0]
  refine ⟨fun hq => h (markerPath_inj _ _ _ _ hq),
    fun hq => h (markerPath_inj _ _ _ _ hq), ?_, ?_⟩
  · exact appendPid_ne_appendCode _ _
  · exact fun hq => appendPid_ne_appendCode _ _ hq.symm

/-- C6 witness: the two concrete environments with ids e1 and e2. -/
theorem c6_marker_paths_exclusive_witness :
    pathJoin (startedEnv Platform.linux serviceNull envWaiting).runnerWorkingFolder "pid" ≠
      pathJoin (startedEnv Platform.linux serviceNull envSecond).runnerWorkingFolder "pid" ∧
    pathJoin (startedEnv Platform.linux serviceNull envWaiting).runnerWorkingFolder "code" ≠
      pathJoin (startedEnv Platform.linux serviceNull envSecond).runnerWorkingFolder "code" ∧
    pathJoin (startedEnv Platform.linux serviceNull envWaiting).runnerWorkingFolder "pid" ≠
      pathJoin (startedEnv Platform.linux serviceNull envSecond).runnerWorkingFolder "code" ∧
    pathJoin (startedEnv Platform.linux serviceNull envWaiting).runnerWorkingFolder "code" ≠
      pathJoin (startedEnv Platform.linux serviceNull envSecond).runnerWorkingFolder "pid" :=
  c6_marker_paths_exclusive Platform.linux serviceNull envWaiting envSecond
    rfl (by decide)

/-- C7 counterexample: a rejected read of the exit-code marker is caught,
but it does not leave the status of that environment unchanged: the check
has already advanced a waiting environment to `RUNNING` when the exception
fires. -/
theorem c7_counterexample :
    envWaiting.status = EnvironmentStatus.WAITING ∧
    obsCodeReadError.codeRead = Except.error "EACCES" ∧
    (checkEnvironmentStatus obsCodeReadError envWaiting).status =
      EnvironmentStatus.RUNNING :=
  ⟨rfl, rfl, rfl⟩

/-- C7 amended: a rejected read while checking one environment is caught
and contained: the batch result for every position is exactly the
independent check of that environment, so one failing environment never
prevents the others from being evaluated and nothing propagates out of the
batch call; a rejected pid-marker read leaves the environment unchanged,
while a rejected exit-code-marker read leaves the status at the `RUNNING`
already assigned in the same check. -/
theorem c7_error_containment
    (batch : List (EnvironmentInformation × EnvCheckObservation))
    (i : Nat) (env : EnvironmentInformation) (obs : EnvCheckObservation)
    (h : batch[i]? = some (env, obs)) :
    (refreshEnvironmentsStatus batch)[i]? =
      some (checkEnvironmentStatus obs env) ∧
    (∀ e, obs.pidRead = Except.error e → checkEnvironmentStatus obs env = env) ∧
    (∀ e p, obs.pidExists = true → obs.pidRead = Except.ok p →
      obs.alive = false → obs.codeExists = true →
      obs.codeRead = Except.error e →
      checkEnvironmentStatus obs env =
        { env with status := EnvironmentStatus.RUNNING }) := by
  refine ⟨?_, ?_, ?_⟩
  · simp [refreshEnvironmentsStatus, List.getElem?_map, h]
  · intro e he
    by_cases hp : obs.pidExists = false <;> simp [checkEnvironmentStatus, hp, he]
  · intro e p h1 h2 h3 h4 h5
    simp [checkEnvironmentStatus, h1, h2, h3, h4, h5]

/-- C7 witness: the concrete two-environment batch whose first check hits
a read error on the exit-code marker. -/
theorem c7_error_containment_witness :
    (refreshEnvironmentsStatus batchTwo)[0]? =
      some (checkEnvironmentStatus obsCodeReadError envWaiting) ∧
    (∀ e, obsCodeReadError.pidRead = Except.error e →
      checkEnvironmentStatus obsCodeReadError envWaiting = envWaiting) ∧
    (∀ e p, obsCodeReadError.pidExists = true →
      obsCodeReadError.pidRead = Except.ok p →
      obsCodeReadError.alive = false → obsCodeReadError.codeExists = true →
      obsCodeReadError.codeRead = Except.error e →
      checkEnvironmentStatus obsCodeReadError envWaiting =
        { envWaiting with status := EnvironmentStatus.RUNNING }) :=
  c7_error_containment batchTwo 0 envWaiting obsCodeReadError rfl

/-- C8: stop on an environment whose `isAlive` flag is false returns
success, records no read and no signal, and a second call adds nothing to
the trace of the first, so two calls are observably one. -/
theorem c8_stop_idempotent (fsState : String → Option String)
    (environment : EnvironmentInformation)
    (h : environment.isAlive = false) :
    stopEnvironment fsState environment = (Except.ok (), []) ∧
    (stopEnvironment fsState environment).2 ++
        (stopEnvironment fsState environment).2 =
      (stopEnvironment fsState environment).2 := by
  simp [stopEnvironment, h]

/-- C8 witness: the concrete stopped environment over the empty
filesystem. -/
theorem c8_stop_idempotent_witness :
    stopEnvironment fsEmpty envStopped = (Except.ok (), []) ∧
    (stopEnvironment fsEmpty envStopped).2 ++
        (stopEnvironment fsEmpty envStopped).2 =
      (stopEnvironment fsEmpty envStopped).2 :=
  c8_stop_idempotent fsEmpty envStopped rfl

/-- C9: an environment whose observation shows no pid marker is returned
by the batch poll exactly as it was, status included; no error is
involved. -/
theorem c9_no_pid_marker
    (batch : List (EnvironmentInformation × EnvCheckObservation))
    (i : Nat) (env : EnvironmentInformation) (obs : EnvCheckObservation)
    (h : batch[i]? = some (env, obs)) (h2 : obs.pidExists = false) :
    (refreshEnvironmentsStatus batch)[i]? = some env ∧
    checkEnvironmentStatus obs env = env := by
  have hc : checkEnvironmentStatus obs env = env := by
    simp [checkEnvironmentStatus, h2]
  exact ⟨by simp [refreshEnvironmentsStatus, List.getElem?_map, h, hc], hc⟩

/-- C9 witness: the concrete one-environment batch with no pid marker
leaves the waiting environment waiting. -/
theorem c9_no_pid_marker_witness :
    (refreshEnvironmentsStatus batchNoPid)[0]? = some envWaiting ∧
    checkEnvironmentStatus obsNoPid envWaiting = envWaiting :=
  c9_no_pid_marker batchNoPid 0 envWaiting obsNoPid rfl rfl

/-- C10: configuring the trial-config key with the string null stores the
parsed JSON null without any shape validation; the stored value is not
undefined, so a later `startEnvironment` does not raise the
configuration-missing error and proceeds to record filesystem actions,
beginning with the directory creation. -/
theorem c10_null_config_not_validated :
    config serviceUndef TrialConfigMetadataKey_TRIAL_CONFIG "null" =
      Except.ok serviceNull ∧
    serviceNull.localTrialConfig = JsValue.null ∧
    serviceNull.localTrialConfig.isUndefined = false ∧
    (startEnvironment Platform.linux serviceNull envWaiting).1 ≠
      Except.error "Local trial config is not initialized" ∧
    (startEnvironment Platform.linux serviceNull envWaiting).2.head? =
      some (FsAction.execMkdir "root/envs/e1") := by
  refine ⟨rfl, rfl, rfl, fun hcontra => Except.noConfusion hcontra, rfl⟩
